import Mathlib

/-!
Verification of the Plain <-> OpenPhone bridge (src/src/index.ts).

The TypeScript worker relays customer communication events between
OpenPhone (telephony) and Plain (ticketing), with best-effort HubSpot
(CRM) enrichment.  We embed the decision logic of the handlers as pure
Lean functions.  Network effects are modelled by passing the outcome of
each outbound call explicitly (a `NetOutcome` per call), and each handler
returns, besides its success flag, the ordered trace of outbound calls it
performed, so that claims about "which calls happen" are statements about
that trace.  Timestamps are integers (milliseconds since epoch), mirroring
`Date.getTime()`.
-/

namespace PlainBridge

/-- Actor provenance tag carried by Plain's `chat.createdBy.actorType`
(`'user' | 'machineUser'` in index.ts). -/
inductive ActorType where
  | user
  | machineUser
deriving DecidableEq, Repr

/-- One media attachment of an OpenPhone message (`{url, type}`). -/
structure Media where
  mtype : String
  url : String
deriving DecidableEq, Repr

/-- Call direction (`'incoming' | 'outgoing'`). -/
inductive Direction where
  | incoming
  | outgoing
deriving DecidableEq, Repr

/-- The fields of OpenPhone `CallData` the handler reads.  `completedAt`
is optional in the source (`completedAt?: string`). -/
structure CallData where
  direction : Direction
  status : String
  duration : Nat
  fromNumber : String
  toNumber : String
  createdAt : String
  completedAt : Option String
deriving DecidableEq, Repr

/-- The fields of OpenPhone `MessageData` the handler reads.  `media` is
optional in the source; the handler passes `messageData.media || []`, so
we model it directly as a list. -/
structure MessageData where
  fromNumber : String
  body : String
  media : List Media
deriving DecidableEq, Repr

/-- The fields of a Plain `thread.chat_sent` webhook the handler reads:
`payload.thread.customer.externalId`, `payload.chat.text`,
`payload.chat.createdBy.actorType`.  The source tests the two strings
with JavaScript truthiness (`!phoneNumber || !message`), under which the
empty string counts as absent, so absence is modelled as `""`. -/
structure PlainChatPayload where
  externalId : String
  text : String
  actorType : ActorType
deriving DecidableEq, Repr

/-- A Plain conversation thread as returned by the `threads` query:
id plus `createdAt`/`updatedAt` timestamps (ms since epoch). -/
structure Thread where
  id : String
  createdAt : Int
  updatedAt : Int
deriving DecidableEq, Repr

/-- A Plain customer record (`id`, `externalId`, `fullName`, optional
email), as created/returned by the `upsertCustomer` mutation. -/
structure Customer where
  id : String
  externalId : String
  fullName : String
  email : Option String
deriving DecidableEq, Repr

/-- Enrichment data returned by `lookupHubSpotContact`:
`{firstName, lastName, email}` (the `phone` field is never read by the
upsert).  `email` is string-or-null in the source; we keep it as an
option and apply JavaScript truthiness where the source does. -/
structure Enrichment where
  firstName : String
  lastName : String
  email : Option String
deriving DecidableEq, Repr

/-- Raw HubSpot contact properties read by `lookupHubSpotContact`
(absent properties surface as `""` after the `|| ''` defaults). -/
structure HSContact where
  firstname : String
  lastname : String
  email : String
deriving DecidableEq, Repr

/-- Raw HubSpot company properties read by `lookupHubSpotContact`. -/
structure HSCompany where
  name : String
  domain : String
deriving DecidableEq, Repr

/-- The fixed outbound number hard-coded in `sendSMSViaOpenPhone`. -/
def OUTBOUND_NUMBER : String := "+16464441357"

/-- One outbound SMS request as built by `sendSMSViaOpenPhone`
(`{from, to: [to], content}`). -/
structure SMS where
  fromNumber : String
  toNumber : String
  content : String
deriving DecidableEq, Repr

/-- Echo guard plus relay of `handlePlainChatMessage` (index.ts lines
196-214): returns the list of SMS send requests the handler issues.
Missing phone or text (JS-falsy, i.e. empty string) is a no-op; a chat
authored by the `machineUser` actor is a no-op; otherwise exactly one
SMS to the thread customer's external id. -/
def handlePlainChatMessage (p : PlainChatPayload) : List SMS :=
  if p.externalId = "" ∨ p.text = "" then []
  else if p.actorType = ActorType.machineUser then []
  else [⟨OUTBOUND_NUMBER, p.externalId, p.text⟩]

/-- The continuity window: `12 * 60 * 60 * 1000` ms (index.ts line 185). -/
def CONTINUITY_WINDOW_MS : Int := 12 * 60 * 60 * 1000

/-- The pure tail of `findRecentThreadForCustomer` (index.ts lines
176-193), applied to the thread list as delivered by Plain (already
sorted by `createdAt` descending by the query; the source does not
re-sort).  Empty list gives none; otherwise the first thread is returned
iff `updatedAt > now - 12h` (strict). -/
def selectRecentThread (threads : List Thread) (now : Int) : Option Thread :=
  match threads with
  | [] => none
  | t :: _ => if t.updatedAt > now - CONTINUITY_WINDOW_MS then some t else none

/-- Message-plus-media flattening shared by `sendCustomerChatToPlain`
(index.ts lines 530-534): with no media the body is the message; with
media, the `type: url` lines joined by newlines are appended after a
blank line (or stand alone when the message is JS-falsy, i.e. empty). -/
def buildFullMessage (message : String) (media : List Media) : String :=
  if media.isEmpty then message
  else
    let mediaUrls := String.intercalate "\n" (media.map fun item => item.mtype ++ ": " ++ item.url)
    if message = "" then mediaUrls else message ++ "\n\n" ++ mediaUrls

/-- JavaScript `String.prototype.trim`: strip leading and trailing
whitespace (an executable rendering, used where the source calls
`.trim()`). -/
def trimChars (l : List Char) : List Char :=
  ((l.dropWhile Char.isWhitespace).reverse.dropWhile Char.isWhitespace).reverse

/-- `trimChars` lifted to strings. -/
def trimString (s : String) : String :=
  ⟨trimChars s.data⟩

/-- The `fullName` computed by `upsertCustomerInPlain` (index.ts lines
335-337): with enrichment, `(firstName ++ " " ++ lastName).trim()`
falling back (JS `||`) to the phone number when that trims to empty;
without enrichment, the phone number itself. -/
def upsertFullName (phoneNumber : String) (hc : Option Enrichment) : String :=
  match hc with
  | none => phoneNumber
  | some c =>
    let t := trimString (c.firstName ++ " " ++ c.lastName)
    if t = "" then phoneNumber else t

/-- The optional email computed by `upsertCustomerInPlain` (index.ts
lines 339-341): `hubspotContact?.email ? {email, isVerified: false} :
null` — present only when enrichment exists and its email is JS-truthy
(non-null and non-empty). -/
def upsertEmail (hc : Option Enrichment) : Option String :=
  match hc with
  | none => none
  | some c =>
    match c.email with
    | none => none
    | some e => if e = "" then none else some e

/-- The pure decision of `lookupHubSpotContact` (index.ts lines 283-309)
given the contact and company result lists: prefer the first contact;
else fall back to the first company, whose display name is its `name`
(or the phone number when JS-falsy) and whose email is `info@domain`
only when `domain` is truthy; else no enrichment. -/
def lookupEnrichment (phoneNumber : String) (contacts : List HSContact)
    (companies : List HSCompany) : Option Enrichment :=
  match contacts with
  | c :: _ =>
    some { firstName := c.firstname
           lastName := c.lastname
           email := if c.email = "" then none else some c.email }
  | [] =>
    match companies with
    | co :: _ =>
      some { firstName := if co.name = "" then phoneNumber else co.name
             lastName := ""
             email := if co.domain = "" then none else some ("info@" ++ co.domain) }
    | [] => none

/-- The thread title built by `handleCallCompleted` (index.ts line 68). -/
def callThreadTitle (d : Direction) (phoneNumber : String) : String :=
  "Call " ++ (match d with | .incoming => "from" | .outgoing => "to") ++ " " ++ phoneNumber

/-- The direction string as interpolated into the call summary. -/
def directionString (d : Direction) : String :=
  match d with | .incoming => "incoming" | .outgoing => "outgoing"

/-- The call-summary text built by `handleCallCompleted` (index.ts lines
72-78): a template literal that starts and ends with a newline,
rendering the duration as `floor(duration / 60)` minutes and
`duration % 60` seconds, then direction, status, start time, and the
`Ended:` line only when `completedAt` is present. -/
def callSummary (cd : CallData) : String :=
  "\nCall Duration: " ++ toString (cd.duration / 60) ++ "m " ++ toString (cd.duration % 60) ++ "s\n" ++
  "Direction: " ++ directionString cd.direction ++ "\n" ++
  "Status: " ++ cd.status ++ "\n" ++
  "Started: " ++ cd.createdAt ++ "\n" ++
  (match cd.completedAt with | some e => "Ended: " ++ e | none => "") ++ "\n"

/-- The counterparty number chosen by `handleCallCompleted` (index.ts
line 59): `from` for incoming calls, `to` for outgoing. -/
def callCounterparty (cd : CallData) : String :=
  match cd.direction with
  | .incoming => cd.fromNumber
  | .outgoing => cd.toNumber

/-- The SMS-thread title built by `handleMessageReceived` (line 112). -/
def smsThreadTitle (phoneNumber : String) : String :=
  "SMS conversation with " ++ phoneNumber

/-! ### The Plain customer store and the `upsertCustomer` write

The worker keys every customer by `externalId = phoneNumber` and sends
`onCreate` fields together with an empty `onUpdate: {}` (index.ts lines
343-355).  We model the platform's documented upsert semantics applied to
exactly the variables the worker constructs: create with the `onCreate`
fields when no customer with that `externalId` exists, otherwise apply
`onUpdate` — which, being empty, changes nothing.  The platform assigns
fresh opaque ids. -/

/-- The Plain workspace's customer table: existing customers plus a
counter from which fresh ids are minted. -/
structure PlainState where
  customers : List Customer
  nextId : Nat
deriving DecidableEq, Repr

/-- Lookup by `externalId` (the upsert identifier the worker sends). -/
def findCustomer (s : PlainState) (externalId : String) : Option Customer :=
  s.customers.find? (fun c => c.externalId = externalId)

/-- `upsertCustomerInPlain` (index.ts lines 316-377) as a state
transformer: the identifier is the phone number verbatim; `onCreate` is
`{externalId, fullName, email?}` with `fullName = upsertFullName` and
the optional email `upsertEmail`; `onUpdate` is `{}`, so an existing
customer is returned unchanged. -/
def upsertCustomerInPlain (s : PlainState) (phoneNumber : String)
    (hc : Option Enrichment) : Customer × PlainState :=
  match findCustomer s phoneNumber with
  | some c => (c, s)
  | none =>
    let c : Customer :=
      { id := "c" ++ toString s.nextId
        externalId := phoneNumber
        fullName := upsertFullName phoneNumber hc
        email := upsertEmail hc }
    (c, { customers := s.customers ++ [c], nextId := s.nextId + 1 })

/-- A Plain workspace with no customers. -/
def emptyPlainState : PlainState := { customers := [], nextId := 0 }

/-- Two phone-number texts denote the same number when they carry the
same digit sequence (formatting characters aside).  This predicate
renders the spec's "two different but equivalent textual forms, both
denoting the same E.164 number"; it exists only to state the
normalization claim and is deliberately NOT derived from the source,
which contains no normalization. -/
def sameDigits (a b : String) : Prop :=
  a.toList.filter Char.isDigit = b.toList.filter Char.isDigit

instance (a b : String) : Decidable (sameDigits a b) := by
  unfold sameDigits; infer_instance

/-! ### Handler pipelines with explicit network outcomes

Each outbound HTTP call can succeed, complete with a GraphQL `errors`
body, or fail at the network level (fetch/json rejection).  The worker
treats these differently per call site, which is exactly what the
error-propagation claims are about. -/

/-- Outcome of one outbound call.  `gqlError` is an HTTP response whose
JSON body has an `errors` field; `netFail` is a thrown exception
(network failure or JSON parse failure). -/
inductive NetOutcome (α : Type) where
  | ok (a : α)
  | gqlError
  | netFail
deriving DecidableEq, Repr

/-- One outbound call, recorded with the arguments the worker sends. -/
inductive Call where
  | hubspotContacts (phone : String)
  | hubspotCompanies (phone : String)
  | plainUpsertCustomer (externalId fullName : String) (email : Option String)
  | plainListThreads (customerId : String)
  | plainCreateThread (customerId title : String)
  | plainCreateThreadEvent (threadId title text : String)
  | plainSendCustomerChat (customerId threadId text : String)
  | openPhoneSendSMS (s : SMS)
deriving DecidableEq, Repr

/-- Result of running one handler: did it complete without a thrown
exception, and which outbound calls did it perform, in order. -/
structure HandlerRun where
  success : Bool
  trace : List Call
deriving DecidableEq, Repr

/-- Network outcomes for the calls `handleMessageReceived` can make.
`enrichment` is the value `lookupHubSpotContact` resolves with: that
function catches every error and both searches are best-effort, so its
outcome is always a value (possibly none). -/
structure MsgOracle where
  enrichment : Option Enrichment
  upsert : NetOutcome Customer
  listThreads : NetOutcome (List Thread)
  createThread : NetOutcome Thread
  sendChat : NetOutcome Unit
deriving Repr

/-- `handleMessageReceived` (index.ts lines 94-122) with its callees
inlined as trace steps:
1. `lookupHubSpotContact` issues both CRM searches; failures are
   absorbed inside it (never fatal).
2. `upsertCustomerInPlain` throws on a GraphQL `errors` body (line 373)
   and on network failure.
3. `findRecentThreadForCustomer` RETURNS NULL on a GraphQL `errors`
   body (lines 171-174) — only a network failure throws; on a value the
   pure 12-hour policy `selectRecentThread` picks the thread.
4. When no thread was selected, `createThreadInPlain` throws on either
   failure kind (lines 415-424).
5. `sendCustomerChatToPlain` never reads its response body (lines
   544-554), so a GraphQL `errors` body is invisible; only a network
   failure throws. -/
def handleMessageReceived (msg : MessageData) (o : MsgOracle) (now : Int) : HandlerRun :=
  let phone := msg.fromNumber
  let crm : List Call := [.hubspotContacts phone, .hubspotCompanies phone]
  let hc := o.enrichment
  let upsertCall : Call :=
    .plainUpsertCustomer phone (upsertFullName phone hc) (upsertEmail hc)
  match o.upsert with
  | .gqlError => ⟨false, crm ++ [upsertCall]⟩
  | .netFail => ⟨false, crm ++ [upsertCall]⟩
  | .ok customer =>
    let pre := crm ++ [upsertCall, .plainListThreads customer.id]
    match o.listThreads with
    | .netFail => ⟨false, pre⟩
    | outcome =>
      let thread? : Option Thread :=
        match outcome with
        | .ok threads => selectRecentThread threads now
        | _ => none
      match thread? with
      | some thread =>
        let chatCall : Call :=
          .plainSendCustomerChat customer.id thread.id (buildFullMessage msg.body msg.media)
        match o.sendChat with
        | .netFail => ⟨false, pre ++ [chatCall]⟩
        | _ => ⟨true, pre ++ [chatCall]⟩
      | none =>
        let ctCall : Call := .plainCreateThread customer.id (smsThreadTitle phone)
        match o.createThread with
        | .gqlError => ⟨false, pre ++ [ctCall]⟩
        | .netFail => ⟨false, pre ++ [ctCall]⟩
        | .ok thread =>
          let chatCall : Call :=
            .plainSendCustomerChat customer.id thread.id (buildFullMessage msg.body msg.media)
          match o.sendChat with
          | .netFail => ⟨false, pre ++ [ctCall, chatCall]⟩
          | _ => ⟨true, pre ++ [ctCall, chatCall]⟩

/-- Does the recency lookup of `handleMessageReceived` come up empty, so
that a new thread must be created?  True when the thread query answered
with a GraphQL `errors` body (absorbed as "no recent thread") or with a
list whose 12-hour policy selects nothing; false when the query failed
at the network level (the handler throws before any decision). -/
def reuseMiss (o : MsgOracle) (now : Int) : Prop :=
  match o.listThreads with
  | .ok ts => selectRecentThread ts now = none
  | .gqlError => True
  | .netFail => False

/-- Network outcomes for the calls `handleCallCompleted` can make. -/
structure CallOracle where
  enrichment : Option Enrichment
  upsert : NetOutcome Customer
  createThread : NetOutcome Thread
  createThreadEvent : NetOutcome Unit
deriving Repr

/-- `handleCallCompleted` (index.ts lines 57-81): CRM lookup, customer
upsert, then ALWAYS a fresh thread (no recency lookup), then a thread
event titled `Call Completed` carrying the call summary.
`createThreadEvent` never reads its response body (lines 455-465), so
only a network failure throws there. -/
def handleCallCompleted (cd : CallData) (o : CallOracle) : HandlerRun :=
  let phone := callCounterparty cd
  let crm : List Call := [.hubspotContacts phone, .hubspotCompanies phone]
  let hc := o.enrichment
  let upsertCall : Call :=
    .plainUpsertCustomer phone (upsertFullName phone hc) (upsertEmail hc)
  match o.upsert with
  | .gqlError => ⟨false, crm ++ [upsertCall]⟩
  | .netFail => ⟨false, crm ++ [upsertCall]⟩
  | .ok customer =>
    let ctCall : Call := .plainCreateThread customer.id (callThreadTitle cd.direction phone)
    match o.createThread with
    | .gqlError => ⟨false, crm ++ [upsertCall, ctCall]⟩
    | .netFail => ⟨false, crm ++ [upsertCall, ctCall]⟩
    | .ok thread =>
      let evCall : Call := .plainCreateThreadEvent thread.id "Call Completed" (callSummary cd)
      match o.createThreadEvent with
      | .netFail => ⟨false, crm ++ [upsertCall, ctCall, evCall]⟩
      | _ => ⟨true, crm ++ [upsertCall, ctCall, evCall]⟩

/-- `handleCallTranscript` (index.ts lines 83-92) only logs; it performs
no outbound call and cannot fail. -/
def handleCallTranscript : HandlerRun := ⟨true, []⟩

/-- Outcome of the one call `handlePlainChatMessage` can make:
`sendSMSViaOpenPhone` throws when the response is not ok (lines
571-575). -/
structure PlainChatOracle where
  sendSMS : NetOutcome Unit
deriving Repr

/-- `handlePlainChatMessage` as a traced run: the guards of
`handlePlainChatMessage` decide whether the SMS call happens at all;
when it happens, an error response makes the handler throw. -/
def handlePlainChatMessageRun (p : PlainChatPayload) (o : PlainChatOracle) : HandlerRun :=
  match handlePlainChatMessage p with
  | [] => ⟨true, []⟩
  | sms :: _ =>
    match o.sendSMS with
    | .ok _ => ⟨true, [.openPhoneSendSMS sms]⟩
    | _ => ⟨false, [.openPhoneSendSMS sms]⟩

/-! ### The two webhook routes -/

/-- An HTTP response as produced by the Hono handlers: `c.text('OK')`
is `200 "OK"`, the catch-all is `500 "Internal server error"`. -/
structure HttpResponse where
  status : Nat
  body : String
deriving DecidableEq, Repr

/-- Map a handler run to the route's response: the route's try/catch
turns any thrown error into 500 (index.ts lines 35-38, 51-54), else
responds `200 "OK"`. -/
def routeResponse (run : HandlerRun) : HttpResponse :=
  if run.success then ⟨200, "OK"⟩ else ⟨500, "Internal server error"⟩

/-- The payload of `POST /webhooks/openphone`: the `type` discriminator
plus whichever data object the type calls for (the handlers cast
`payload.data.object` themselves). -/
structure OpenPhonePayload where
  ptype : String
  callData : CallData
  messageData : MessageData
deriving Repr

/-- The OpenPhone webhook route (index.ts lines 12-39): dispatch on
`payload.type`; unknown types only log and fall through to `200 "OK"`
with no outbound call. -/
def openPhoneWebhook (p : OpenPhonePayload) (co : CallOracle) (mo : MsgOracle)
    (now : Int) : HttpResponse × List Call :=
  let run : HandlerRun :=
    if p.ptype = "call.completed" then handleCallCompleted p.callData co
    else if p.ptype = "call.transcript.completed" then handleCallTranscript
    else if p.ptype = "message.received" then handleMessageReceived p.messageData mo now
    else ⟨true, []⟩
  (routeResponse run, run.trace)

/-- The payload of `POST /webhooks/plain`. -/
structure PlainPayload where
  ptype : String
  chat : PlainChatPayload
deriving Repr

/-- The Plain webhook route (index.ts lines 41-55): only
`thread.chat_sent` is handled; every other type responds `200 "OK"`
with no outbound call. -/
def plainWebhook (p : PlainPayload) (o : PlainChatOracle) : HttpResponse × List Call :=
  let run : HandlerRun :=
    if p.ptype = "thread.chat_sent" then handlePlainChatMessageRun p.chat o
    else ⟨true, []⟩
  (routeResponse run, run.trace)

/-! ### Helper lemmas -/

/-- A string starting with the literal `info@` is never empty. -/
theorem info_append_ne_empty (d : String) : "info@" ++ d ≠ "" := by
  intro h
  have hl := congrArg String.length h
  rw [String.length_append] at hl
  have h5 : ("info@" : String).length = 5 := rfl
  have h0 : ("" : String).length = 0 := rfl
  rw [h5, h0] at hl
  omega

/-- After creating a customer for a fresh external id, looking that id up
finds exactly the created customer. -/
theorem findCustomer_create (s : PlainState) (phone : String) (hc : Option Enrichment)
    (h : findCustomer s phone = none) :
    findCustomer (upsertCustomerInPlain s phone hc).2 phone =
      some (upsertCustomerInPlain s phone hc).1 := by
  unfold upsertCustomerInPlain
  rw [h]
  simp only [findCustomer, List.find?_append]
  unfold findCustomer at h
  rw [h]
  simp

/-- A second upsert of the same phone number returns the first upsert's
customer and leaves the store exactly as the first upsert left it,
whatever enrichment either call carries. -/
theorem upsert_second_eq (s : PlainState) (phone : String) (e1 e2 : Option Enrichment) :
    upsertCustomerInPlain (upsertCustomerInPlain s phone e1).2 phone e2 =
      ((upsertCustomerInPlain s phone e1).1, (upsertCustomerInPlain s phone e1).2) := by
  cases h : findCustomer s phone with
  | some c =>
    have h1 : upsertCustomerInPlain s phone e1 = (c, s) := by
      unfold upsertCustomerInPlain; rw [h]
    rw [h1]
    unfold upsertCustomerInPlain
    rw [h]
  | none =>
    have hf := findCustomer_create s phone e1 h
    generalize hu : upsertCustomerInPlain s phone e1 = r at hf ⊢
    unfold upsertCustomerInPlain
    rw [hf]

/-! ### Claims -/

/-- Claim C1: a `thread.chat_sent` event authored by the relay's
non-human `machineUser` actor produces zero outbound SMS sends; one
authored by a human `user` actor with phone number and text both present
produces exactly one SMS, addressed to that phone number. -/
theorem echo_guard_sms (p : PlainChatPayload) :
    (p.actorType = ActorType.machineUser → handlePlainChatMessage p = []) ∧
    (p.actorType = ActorType.user → p.externalId ≠ "" → p.text ≠ "" →
      handlePlainChatMessage p = [⟨OUTBOUND_NUMBER, p.externalId, p.text⟩]) := by
  constructor
  · intro h
    unfold handlePlainChatMessage
    split
    · rfl
    · simp [h]
  · intro h h1 h2
    unfold handlePlainChatMessage
    simp [h, h1, h2]

/-- Witness for C1 at a concrete payload. -/
theorem echo_guard_sms_witness :
    handlePlainChatMessage ⟨"+15551234567", "hello", ActorType.machineUser⟩ = [] ∧
    handlePlainChatMessage ⟨"+15551234567", "hello", ActorType.user⟩ =
      [⟨OUTBOUND_NUMBER, "+15551234567", "hello"⟩] :=
  ⟨(echo_guard_sms _).1 rfl,
   (echo_guard_sms _).2 rfl (by decide) (by decide)⟩

/-- Claim C2: for a customer with a non-empty thread list (delivered
most-recently-created first), the policy returns the most recently
created thread iff `now - updatedAt` is strictly below twelve hours, and
otherwise returns none. -/
theorem continuity_window_boundary (t : Thread) (rest : List Thread) (now : Int)
    (_hsorted : ∀ u ∈ rest, u.createdAt ≤ t.createdAt) :
    (selectRecentThread (t :: rest) now = some t ↔
      now - t.updatedAt < CONTINUITY_WINDOW_MS) ∧
    (¬ now - t.updatedAt < CONTINUITY_WINDOW_MS →
      selectRecentThread (t :: rest) now = none) := by
  constructor
  · constructor
    · intro h
      simp only [selectRecentThread] at h
      split at h
      · next hc => omega
      · exact absurd h (by simp)
    · intro h
      have hc : t.updatedAt > now - CONTINUITY_WINDOW_MS := by omega
      simp [selectRecentThread, hc]
  · intro h
    have hc : ¬ t.updatedAt > now - CONTINUITY_WINDOW_MS := by omega
    simp [selectRecentThread, hc]

/-- Witness for C2 at the spec's boundary inputs: a thread updated
11h59m ago is reused, one updated 12h01m ago is not
(times in milliseconds). -/
theorem continuity_window_boundary_witness :
    selectRecentThread [⟨"t1", 0, 1000000000000 - 43140000⟩] 1000000000000 =
      some ⟨"t1", 0, 1000000000000 - 43140000⟩ ∧
    selectRecentThread [⟨"t2", 0, 1000000000000 - 43260000⟩] 1000000000000 = none :=
  ⟨(continuity_window_boundary ⟨"t1", 0, 1000000000000 - 43140000⟩ [] 1000000000000
      (by simp)).1.mpr (by decide),
   (continuity_window_boundary ⟨"t2", 0, 1000000000000 - 43260000⟩ [] 1000000000000
      (by simp)).2 (by decide)⟩

/-- Claim C5, evaluated on the code: with no enrichment available, the
customer created for `+15551234567` carries the phone number as display
name but NO email at all — the `{phone}@phone.maple.inc` placeholder
email documented in the repository README is never generated. -/
theorem fallback_no_email_eval :
    (upsertCustomerInPlain emptyPlainState "+15551234567" none).1 =
      { id := "c0", externalId := "+15551234567",
        fullName := "+15551234567", email := none } := by
  decide

/-- Claim C6: upserting the same phone number a second time — whatever
enrichment either call carries, including none at all — returns the
customer of the first call unchanged (same display name and email) and
leaves the store untouched. -/
theorem upsert_no_clobber (s : PlainState) (phone : String) (e1 e2 : Option Enrichment) :
    (upsertCustomerInPlain (upsertCustomerInPlain s phone e1).2 phone e2).1 =
      (upsertCustomerInPlain s phone e1).1 ∧
    (upsertCustomerInPlain (upsertCustomerInPlain s phone e1).2 phone e2).2 =
      (upsertCustomerInPlain s phone e1).2 := by
  rw [upsert_second_eq]
  exact ⟨rfl, rfl⟩

/-- Claim C7: whenever the media list is non-empty, the relayed text
body is the original message text followed (after a blank line, absent
when the message is empty) by one `type: url` line per attachment,
joined in attachment order. -/
theorem media_flattening (message : String) (media : List Media) (h : media ≠ []) :
    buildFullMessage message media =
      message ++ (if message = "" then "" else "\n\n") ++
        String.intercalate "\n" (media.map fun m => m.mtype ++ ": " ++ m.url) := by
  unfold buildFullMessage
  have hne : media.isEmpty = false := by
    cases media with
    | nil => exact absurd rfl h
    | cons a l => rfl
  rw [hne]
  by_cases hm : message = ""
  · simp [hm]
  · simp [hm]

/-- Witness for C7: two attachments appended after the original text. -/
theorem media_flattening_witness :
    buildFullMessage "hi there" [⟨"image/jpeg", "http://a.example/1"⟩,
        ⟨"video/mp4", "http://b.example/2"⟩] =
      "hi there" ++ (if ("hi there" : String) = "" then "" else "\n\n") ++
        String.intercalate "\n" ([Media.mk "image/jpeg" "http://a.example/1",
          Media.mk "video/mp4" "http://b.example/2"].map fun m => m.mtype ++ ": " ++ m.url) :=
  media_flattening "hi there" [⟨"image/jpeg", "http://a.example/1"⟩,
    ⟨"video/mp4", "http://b.example/2"⟩] (by decide)

/-- Claim C3 counterexample: `+15551234567` and `+1 (555) 123-4567` are
two textual forms of the same number (same digit sequence), yet
resolving them one after the other against an empty workspace yields two
distinct customer ids: nothing is normalized before lookup or storage. -/
theorem phone_not_normalized_cex :
    sameDigits "+15551234567" "+1 (555) 123-4567" ∧
    ("+15551234567" : String) ≠ "+1 (555) 123-4567" ∧
    (upsertCustomerInPlain
        (upsertCustomerInPlain emptyPlainState "+15551234567" none).2
        "+1 (555) 123-4567" none).1.id ≠
      (upsertCustomerInPlain emptyPlainState "+15551234567" none).1.id :=
  ⟨by decide, by decide, by decide⟩

/-- Claim C3 amended: identity resolution performs no normalization and
keys the customer store by the phone number text verbatim: the stored
external id is the input string unchanged, and resolving the same
textual form again returns the same customer id (equivalent but
textually different forms are distinct keys, as the counterexample
shows). -/
theorem resolution_verbatim_key (s : PlainState) (phone : String)
    (e1 e2 : Option Enrichment) (h : findCustomer s phone = none) :
    (upsertCustomerInPlain s phone e1).1.externalId = phone ∧
    (upsertCustomerInPlain (upsertCustomerInPlain s phone e1).2 phone e2).1.id =
      (upsertCustomerInPlain s phone e1).1.id := by
  constructor
  · unfold upsertCustomerInPlain
    rw [h]
  · rw [upsert_second_eq]

/-- Witness for the amended C3 statement on a fresh workspace. -/
theorem resolution_verbatim_key_witness :
    (upsertCustomerInPlain emptyPlainState "+15551234567" none).1.externalId =
      "+15551234567" ∧
    (upsertCustomerInPlain (upsertCustomerInPlain emptyPlainState "+15551234567" none).2
        "+15551234567" none).1.id =
      (upsertCustomerInPlain emptyPlainState "+15551234567" none).1.id :=
  resolution_verbatim_key emptyPlainState "+15551234567" none none (by decide)

/-- Claim C8: an inbound envelope whose event type has no handler yields
`200 "OK"` and zero outbound calls, on both webhook routes. -/
theorem unhandled_type_ack (p : OpenPhonePayload) (co : CallOracle) (mo : MsgOracle)
    (now : Int) (q : PlainPayload) (o : PlainChatOracle)
    (h1 : p.ptype ≠ "call.completed") (h2 : p.ptype ≠ "call.transcript.completed")
    (h3 : p.ptype ≠ "message.received") (h4 : q.ptype ≠ "thread.chat_sent") :
    openPhoneWebhook p co mo now = (⟨200, "OK"⟩, []) ∧
    plainWebhook q o = (⟨200, "OK"⟩, []) := by
  constructor
  · simp [openPhoneWebhook, routeResponse, h1, h2, h3]
  · simp [plainWebhook, routeResponse, h4]

/-- Witness for C8: unrecognized types on both routes, with oracles that
would fail every call — no call is ever made. -/
theorem unhandled_type_ack_witness :
    openPhoneWebhook
        ⟨"contact.updated", ⟨.incoming, "completed", 0, "", "", "", none⟩, ⟨"", "", []⟩⟩
        ⟨none, .netFail, .netFail, .netFail⟩
        ⟨none, .netFail, .netFail, .netFail, .netFail⟩ 0 = (⟨200, "OK"⟩, []) ∧
    plainWebhook ⟨"thread.note_created", ⟨"", "", .user⟩⟩ ⟨.netFail⟩ = (⟨200, "OK"⟩, []) :=
  unhandled_type_ack _ _ _ _ _ _ (by decide) (by decide) (by decide) (by decide)

/-- Claim C9: on a completed call the handler resolves identity from the
counterparty number (`from` when incoming, `to` when outgoing), always
creates a new thread titled with direction and number — the trace holds
no thread-recency query — and appends a `Call Completed` event carrying
the call summary, whose duration renders as `duration / 60` minutes and
`duration % 60` seconds alongside direction, status, start time and,
when present, end time. -/
theorem call_completed_pipeline (cd : CallData) (o : CallOracle)
    (customer : Customer) (thread : Thread)
    (hu : o.upsert = .ok customer) (ht : o.createThread = .ok thread)
    (he : o.createThreadEvent = .ok ()) :
    handleCallCompleted cd o =
      ⟨true,
       [.hubspotContacts (callCounterparty cd),
        .hubspotCompanies (callCounterparty cd),
        .plainUpsertCustomer (callCounterparty cd)
          (upsertFullName (callCounterparty cd) o.enrichment) (upsertEmail o.enrichment),
        .plainCreateThread customer.id (callThreadTitle cd.direction (callCounterparty cd)),
        .plainCreateThreadEvent thread.id "Call Completed" (callSummary cd)]⟩ ∧
    ∀ cid, Call.plainListThreads cid ∉ (handleCallCompleted cd o).trace := by
  have heq : handleCallCompleted cd o =
      ⟨true,
       [.hubspotContacts (callCounterparty cd),
        .hubspotCompanies (callCounterparty cd),
        .plainUpsertCustomer (callCounterparty cd)
          (upsertFullName (callCounterparty cd) o.enrichment) (upsertEmail o.enrichment),
        .plainCreateThread customer.id (callThreadTitle cd.direction (callCounterparty cd)),
        .plainCreateThreadEvent thread.id "Call Completed" (callSummary cd)]⟩ := by
    unfold handleCallCompleted
    rw [hu, ht, he]
    rfl
  refine ⟨heq, ?_⟩
  intro cid
  rw [heq]
  simp

/-- Witness for C9: an incoming 125-second call, all platform calls
succeeding; the summary renders 2m 5s and the `Ended:` line. -/
theorem call_completed_pipeline_witness :
    handleCallCompleted
        ⟨.incoming, "completed", 125, "+15550001111", "+15552223333",
         "2024-01-01T00:00:00Z", some "2024-01-01T00:02:05Z"⟩
        ⟨none, .ok ⟨"c9", "+15550001111", "+15550001111", none⟩, .ok ⟨"t9", 0, 0⟩, .ok ()⟩ =
      ⟨true,
       [.hubspotContacts "+15550001111",
        .hubspotCompanies "+15550001111",
        .plainUpsertCustomer "+15550001111" "+15550001111" none,
        .plainCreateThread "c9" "Call from +15550001111",
        .plainCreateThreadEvent "t9" "Call Completed"
          "\nCall Duration: 2m 5s\nDirection: incoming\nStatus: completed\nStarted: 2024-01-01T00:00:00Z\nEnded: 2024-01-01T00:02:05Z\n"]⟩ := by
  rw [(call_completed_pipeline
    ⟨.incoming, "completed", 125, "+15550001111", "+15552223333",
     "2024-01-01T00:00:00Z", some "2024-01-01T00:02:05Z"⟩
    ⟨none, .ok ⟨"c9", "+15550001111", "+15550001111", none⟩, .ok ⟨"t9", 0, 0⟩, .ok ()⟩
    ⟨"c9", "+15550001111", "+15550001111", none⟩ ⟨"t9", 0, 0⟩ rfl rfl rfl).1]
  decide

/-- Claim C10: when the CRM finds no contact but at least one company,
the enrichment used by the upsert takes the first company's name as the
display name — the phone number when that name is empty — and carries
the email `info@domain` exactly when the company has a domain.  The two
trim hypotheses say the name and the phone carry no surrounding
whitespace, as CRM names and E.164 numbers do. -/
theorem company_fallback_enrichment (phone : String) (co : HSCompany)
    (rest : List HSCompany)
    (hname : trimString (co.name ++ " ") = co.name)
    (hphone : trimString (phone ++ " ") = phone) :
    upsertFullName phone (lookupEnrichment phone [] (co :: rest)) =
      (if co.name = "" then phone else co.name) ∧
    upsertEmail (lookupEnrichment phone [] (co :: rest)) =
      (if co.domain = "" then none else some ("info@" ++ co.domain)) := by
  constructor
  · unfold lookupEnrichment upsertFullName
    by_cases hn : co.name = ""
    · simp [hn, String.append_empty, hphone]
    · simp [hn, String.append_empty, hname]
  · unfold lookupEnrichment upsertEmail
    by_cases hd : co.domain = ""
    · simp [hd]
    · simp [hd, info_append_ne_empty co.domain]

/-- Witness for C10: a company named `Acme` with domain `acme.com`
matching `+15551234567`. -/
theorem company_fallback_enrichment_witness :
    upsertFullName "+15551234567"
        (lookupEnrichment "+15551234567" [] [⟨"Acme", "acme.com"⟩]) =
      (if ("Acme" : String) = "" then "+15551234567" else "Acme") ∧
    upsertEmail (lookupEnrichment "+15551234567" [] [⟨"Acme", "acme.com"⟩]) =
      (if ("acme.com" : String) = "" then none else some ("info@" ++ "acme.com")) :=
  company_fallback_enrichment "+15551234567" ⟨"Acme", "acme.com"⟩ []
    (by decide) (by decide)

/-- Claim C4 counterexample: a GraphQL-error response to the ticketing
thread-recency query does not fail the event — the route still answers
`200 "OK"`, and the later thread-creation and chat-send steps run after
the failed ticketing call, contradicting both halves of the claim. -/
theorem error_absorption_cex :
    handleMessageReceived ⟨"+15551234567", "hi", []⟩
        ⟨none, .ok ⟨"c1", "+15551234567", "+15551234567", none⟩, .gqlError,
         .ok ⟨"t1", 0, 0⟩, .ok ()⟩ 0 =
      ⟨true,
       [.hubspotContacts "+15551234567", .hubspotCompanies "+15551234567",
        .plainUpsertCustomer "+15551234567" "+15551234567" none,
        .plainListThreads "c1",
        .plainCreateThread "c1" "SMS conversation with +15551234567",
        .plainSendCustomerChat "c1" "t1" "hi"]⟩ ∧
    routeResponse (handleMessageReceived ⟨"+15551234567", "hi", []⟩
        ⟨none, .ok ⟨"c1", "+15551234567", "+15551234567", none⟩, .gqlError,
         .ok ⟨"t1", 0, 0⟩, .ok ()⟩ 0) = ⟨200, "OK"⟩ :=
  ⟨by decide, by decide⟩

/-- Claim C4 amended, across all three pipelines: network-level failures
of any outbound ticketing or telephony call fail the event (surfaced as
500 by `routeResponse`) and stop the pipeline, as do GraphQL-error
responses to the customer upsert and to thread creation; but a
GraphQL-error response to the thread-recency query is absorbed — the
message pipeline continues exactly as if the customer had no threads —
and the chat-send and thread-event response bodies are never inspected,
so a GraphQL error in either still yields success; CRM enrichment
failures never fail the event (`lookupHubSpotContact` always resolves).
Conjuncts one to seven cover `handleMessageReceived`, the next four
cover `handleCallCompleted` (upsert and thread-creation failures stop
it; a `createThreadEvent` GraphQL-error body is invisible while its
network failure fails the event), the next one covers the telephony
send of `handlePlainChatMessage` (a failed SMS call fails the event),
and the last maps every failed run to the 500 response. -/
theorem error_propagation_amended (msg : MessageData) (o : MsgOracle) (now : Int)
    (cd : CallData) (co : CallOracle) (p : PlainChatPayload) (po : PlainChatOracle) :
    (o.upsert = .gqlError ∨ o.upsert = .netFail →
      handleMessageReceived msg o now =
        ⟨false, [.hubspotContacts msg.fromNumber, .hubspotCompanies msg.fromNumber,
                 .plainUpsertCustomer msg.fromNumber
                   (upsertFullName msg.fromNumber o.enrichment) (upsertEmail o.enrichment)]⟩) ∧
    (∀ c, o.upsert = .ok c → o.listThreads = .netFail →
      handleMessageReceived msg o now =
        ⟨false, [.hubspotContacts msg.fromNumber, .hubspotCompanies msg.fromNumber,
                 .plainUpsertCustomer msg.fromNumber
                   (upsertFullName msg.fromNumber o.enrichment) (upsertEmail o.enrichment),
                 .plainListThreads c.id]⟩) ∧
    (o.listThreads = .gqlError →
      handleMessageReceived msg o now =
        handleMessageReceived msg
          { enrichment := o.enrichment, upsert := o.upsert, listThreads := .ok [],
            createThread := o.createThread, sendChat := o.sendChat } now) ∧
    (handleMessageReceived msg
        { enrichment := o.enrichment, upsert := o.upsert, listThreads := o.listThreads,
          createThread := o.createThread, sendChat := .gqlError } now =
      handleMessageReceived msg
        { enrichment := o.enrichment, upsert := o.upsert, listThreads := o.listThreads,
          createThread := o.createThread, sendChat := .ok () } now) ∧
    (∀ c, o.upsert = .ok c → reuseMiss o now →
      (o.createThread = .gqlError ∨ o.createThread = .netFail) →
      (handleMessageReceived msg o now).success = false ∧
      ∀ cid tid txt,
        Call.plainSendCustomerChat cid tid txt ∉ (handleMessageReceived msg o now).trace) ∧
    ((handleMessageReceived msg o now).success = true ↔
      (∃ c, o.upsert = .ok c) ∧ o.listThreads ≠ .netFail ∧
      (reuseMiss o now → ∃ t, o.createThread = .ok t) ∧ o.sendChat ≠ .netFail) ∧
    ((handleMessageReceived msg o now).success = false →
      routeResponse (handleMessageReceived msg o now) = ⟨500, "Internal server error"⟩) ∧
    (co.upsert = .gqlError ∨ co.upsert = .netFail →
      handleCallCompleted cd co =
        ⟨false, [.hubspotContacts (callCounterparty cd), .hubspotCompanies (callCounterparty cd),
                 .plainUpsertCustomer (callCounterparty cd)
                   (upsertFullName (callCounterparty cd) co.enrichment)
                   (upsertEmail co.enrichment)]⟩) ∧
    (∀ c, co.upsert = .ok c →
      co.createThread = .gqlError ∨ co.createThread = .netFail →
      handleCallCompleted cd co =
        ⟨false, [.hubspotContacts (callCounterparty cd), .hubspotCompanies (callCounterparty cd),
                 .plainUpsertCustomer (callCounterparty cd)
                   (upsertFullName (callCounterparty cd) co.enrichment)
                   (upsertEmail co.enrichment),
                 .plainCreateThread c.id (callThreadTitle cd.direction (callCounterparty cd))]⟩) ∧
    (handleCallCompleted cd
        { enrichment := co.enrichment, upsert := co.upsert, createThread := co.createThread,
          createThreadEvent := .gqlError } =
      handleCallCompleted cd
        { enrichment := co.enrichment, upsert := co.upsert, createThread := co.createThread,
          createThreadEvent := .ok () }) ∧
    (∀ c t, co.upsert = .ok c → co.createThread = .ok t →
      co.createThreadEvent = .netFail → (handleCallCompleted cd co).success = false) ∧
    (po.sendSMS = .gqlError ∨ po.sendSMS = .netFail →
      ∀ sms rest, handlePlainChatMessage p = sms :: rest →
        handlePlainChatMessageRun p po = ⟨false, [.openPhoneSendSMS sms]⟩) ∧
    (∀ run : HandlerRun, run.success = false →
      routeResponse run = ⟨500, "Internal server error"⟩) := by
  obtain ⟨en, up, lt, ct, sc⟩ := o
  obtain ⟨cen, cup, cct, cev⟩ := co
  obtain ⟨ps⟩ := po
  refine ⟨?_, ?_, ?_, ?_, ?_, ?_, ?_, ?_, ?_, ?_, ?_, ?_, ?_⟩
  · rintro (h | h) <;> subst h <;> rfl
  · rintro c h hl
    subst h; subst hl; rfl
  · rintro hl
    subst hl
    cases up <;> rfl
  · cases up with
    | gqlError => rfl
    | netFail => rfl
    | ok c =>
      cases lt with
      | netFail => rfl
      | gqlError => cases ct <;> rfl
      | ok ts =>
        cases hsel : selectRecentThread ts now with
        | some t => rfl
        | none => cases ct <;> rfl
  · rintro c h hm hct
    subst h
    cases lt with
    | netFail => exact absurd hm (by simp [reuseMiss])
    | gqlError =>
      rcases hct with h | h <;> subst h <;>
        exact ⟨rfl, by intro cid tid txt hmem; simp [handleMessageReceived] at hmem⟩
    | ok ts =>
      have hsel : selectRecentThread ts now = none := hm
      rcases hct with h | h <;> subst h <;>
        exact ⟨by simp [handleMessageReceived, hsel],
               by intro cid tid txt hmem; simp [handleMessageReceived, hsel] at hmem⟩
  · cases up with
    | gqlError => simp [handleMessageReceived]
    | netFail => simp [handleMessageReceived]
    | ok c =>
      cases lt with
      | netFail => simp [handleMessageReceived, reuseMiss]
      | gqlError =>
        cases ct with
        | ok t => cases sc <;> simp [handleMessageReceived, reuseMiss]
        | gqlError => simp [handleMessageReceived, reuseMiss]
        | netFail => simp [handleMessageReceived, reuseMiss]
      | ok ts =>
        cases hsel : selectRecentThread ts now with
        | some t => cases sc <;> simp [handleMessageReceived, reuseMiss, hsel]
        | none =>
          cases ct with
          | ok t => cases sc <;> simp [handleMessageReceived, reuseMiss, hsel]
          | gqlError => simp [handleMessageReceived, reuseMiss, hsel]
          | netFail => simp [handleMessageReceived, reuseMiss, hsel]
  · intro h
    simp [routeResponse, h]
  · rintro (h | h) <;> subst h <;> rfl
  · rintro c h (h2 | h2) <;> subst h <;> subst h2 <;> rfl
  · cases cup with
    | gqlError => rfl
    | netFail => rfl
    | ok c => cases cct <;> rfl
  · rintro c t h1 h2 h3
    subst h1; subst h2; subst h3; rfl
  · rintro (h | h) sms rest hp <;> subst h <;>
      · unfold handlePlainChatMessageRun
        rw [hp]
  · intro run h
    simp [routeResponse, h]

/-- Witness for the amended C4 statement: a failed customer upsert stops
the message pipeline after the two CRM calls and the upsert itself, and
a failed SMS send fails a human-authored `thread.chat_sent` event. -/
theorem error_propagation_amended_witness :
    handleMessageReceived ⟨"+15551234567", "hi", []⟩
        ⟨none, .gqlError, .ok [], .ok ⟨"t1", 0, 0⟩, .ok ()⟩ 0 =
      ⟨false, [.hubspotContacts "+15551234567", .hubspotCompanies "+15551234567",
               .plainUpsertCustomer "+15551234567" "+15551234567" none]⟩ ∧
    handlePlainChatMessageRun ⟨"+15551234567", "reply text", .user⟩ ⟨.netFail⟩ =
      ⟨false, [.openPhoneSendSMS ⟨OUTBOUND_NUMBER, "+15551234567", "reply text"⟩]⟩ :=
  ⟨(error_propagation_amended ⟨"+15551234567", "hi", []⟩
      ⟨none, .gqlError, .ok [], .ok ⟨"t1", 0, 0⟩, .ok ()⟩ 0
      ⟨.incoming, "completed", 0, "", "", "", none⟩ ⟨none, .netFail, .netFail, .netFail⟩
      ⟨"+15551234567", "reply text", .user⟩ ⟨.netFail⟩).1 (Or.inl rfl),
   (error_propagation_amended ⟨"+15551234567", "hi", []⟩
      ⟨none, .gqlError, .ok [], .ok ⟨"t1", 0, 0⟩, .ok ()⟩ 0
      ⟨.incoming, "completed", 0, "", "", "", none⟩ ⟨none, .netFail, .netFail, .netFail⟩
      ⟨"+15551234567", "reply text", .user⟩ ⟨.netFail⟩).2.2.2.2.2.2.2.2.2.2.2.1
     (Or.inr rfl) ⟨OUTBOUND_NUMBER, "+15551234567", "reply text"⟩ [] rfl⟩

end PlainBridge
